import Mathlib

/-!
Verification development for the driver-monitoring-system repository.

The subject is the per-frame driver-state detection engine
(`src/mobile-app/src/services/detectionEngine.ts`, class `DetectionEngine`)
together with the cooldown-gated alert dispatch of the
`FaceDetectionProcessor` component.

Embedding conventions:
  * JavaScript numbers that the engine compares and adds are modelled as `ℚ`
    (thresholds, EAR/MAR values, normalized coordinates); integer frame
    counters as `ℕ`; millisecond wall-clock times (`Date.now()`) as `ℤ`.
  * `Math.hypot` (Euclidean norm, used only inside the geometry extractors)
    is modelled over `ℝ` as `Real.sqrt (x^2 + y^2)`.
  * `processFrame` is embedded over the scalar measurements the geometry
    layer produces before the crash point (left/right EAR, iris centroid,
    nose-tip position).  On every face-bearing call the source raises an
    uncaught TypeError at line 320: line 318 builds the 4-element slice
    `MOUTH.map(i => landmarks[i])` and `calculateMAR` indexes it at 13, 14,
    78 and 308.  The embedding therefore returns `Except`: the error value
    carries the state mutations and alert deliveries that complete before
    the throw, and the sections after line 320 (MAR history, yawning, head
    pose, gaze, hands, composites) are never composed into `processFrame`;
    where a claim concerns one of them, only its section-local logic is
    defined.
  * Alert ids (built from `Date.now()` and `Math.random()`), timestamps and
    the free-form `metadata` object carry no information used by any claim
    and are omitted from the `AlertData` record.
-/

/- The Batteries library marks the rational operations irreducible only to
keep `simp` from unfolding them into `Rat.normalize` terms; concrete
scenario evaluations below go through `decide`, which needs them
transparent at elaboration time.  The kernel is unaffected either way. -/
unseal Rat.add Rat.mul Rat.inv Rat.sub

/-- Alert severity, the `'mild' | 'moderate' | 'severe'` union of the source. -/
inductive Severity
  | mild
  | moderate
  | severe
deriving DecidableEq

/-- The alert categories (`AlertType`) the engine emits. -/
inductive AlertType
  | eye_closure
  | blink_rate_high
  | yawning
  | head_turn
  | head_droop
  | gaze_deviation
  | phone_usage
  | hand_near_face
  | texting
  | drowsiness
  | distraction
deriving DecidableEq

/-- An emitted alert (`AlertData`), restricted to the fields the engine
computes deterministically: category, severity, message and confidence. -/
structure AlertData where
  type : AlertType
  severity : Severity
  message : String
  confidence : ℚ
deriving DecidableEq

/-- `DetectionConfig`: the numeric threshold structure of the engine. -/
structure DetectionConfig where
  earThreshold : ℚ
  eyeClosedFramesThreshold : ℕ
  blinkRateThreshold : ℕ
  marThreshold : ℚ
  yawnThreshold : ℕ
  gazeDeviationThreshold : ℚ
  headTurnThreshold : ℚ
  handNearFaceDistance : ℚ
deriving DecidableEq

/-- `DEFAULT_CONFIG` of `detectionEngine.ts` (lines 4-13). -/
def DEFAULT_CONFIG : DetectionConfig :=
  { earThreshold := 140/1000
    eyeClosedFramesThreshold := 9
    blinkRateThreshold := 5
    marThreshold := 6/10
    yawnThreshold := 3
    gazeDeviationThreshold := 5/100
    headTurnThreshold := 8/100
    handNearFaceDistance := 200 }

/-- The calibration snapshot stored by `setCalibration`. -/
structure CalibrationData where
  gazeCenter : ℚ
  headCenterX : ℚ
  headCenterY : ℚ
deriving DecidableEq

/-- The mutable fields of a `DetectionEngine` instance.  The callback list
is modelled by the number of registered callbacks (each `triggerAlert` call
delivers the alert once to every callback). -/
structure EngineState where
  config : DetectionConfig
  eyeClosureCounter : ℕ
  blinkCounter : ℕ
  yawnCounter : ℕ
  blinkTimer : ℤ
  marHistory : List ℚ
  calibrationData : Option CalibrationData
  isCalibrated : Bool
  alertCallbacks : ℕ
deriving DecidableEq

/-- The constructor of `DetectionEngine` (lines 30-33): zero counters, a
30-entry zero-filled MAR history, no calibration, no callbacks; `now` is the
`Date.now()` read into `blinkTimer`. -/
def mkEngine (config : DetectionConfig) (now : ℤ) : EngineState :=
  { config := config
    eyeClosureCounter := 0
    blinkCounter := 0
    yawnCounter := 0
    blinkTimer := now
    marHistory := List.replicate 30 0
    calibrationData := none
    isCalibrated := false
    alertCallbacks := 0 }

/-- `setCalibration` (lines 39-42). -/
def setCalibration (st : EngineState) (gazeCenter headCenterX headCenterY : ℚ) :
    EngineState :=
  { st with
    calibrationData := some ⟨gazeCenter, headCenterX, headCenterY⟩
    isCalibrated := true }

/-- `addAlertCallback` (lines 44-46): registers one more subscriber. -/
def addAlertCallback (st : EngineState) : EngineState :=
  { st with alertCallbacks := st.alertCallbacks + 1 }

/-- `triggerAlert` (lines 48-62): builds one alert and fans it out
synchronously to every registered callback.  The first component is the
built alert, the second the list of deliveries (one per subscriber).  The
source consults no timestamp and no per-category state before dispatching:
every call delivers to every subscriber. -/
def triggerAlert (st : EngineState) (type : AlertType) (severity : Severity)
    (message : String) (confidence : ℚ) : AlertData × List AlertData :=
  let alert : AlertData :=
    { type := type, severity := severity, message := message, confidence := confidence }
  (alert, List.replicate st.alertCallbacks alert)

/-- `reset` (lines 466-472): zero the three counters, restart the blink
timer from `Date.now()` (`now`), and `fill(0)` the MAR history in place. -/
def reset (st : EngineState) (now : ℤ) : EngineState :=
  { st with
    eyeClosureCounter := 0
    blinkCounter := 0
    yawnCounter := 0
    blinkTimer := now
    marHistory := st.marHistory.map (fun _ => 0) }

/-- Severity ladder used by the categorical sub-results
(`'none' | 'mild' | 'moderate' | 'severe'`). -/
inductive Level
  | none
  | mild
  | moderate
  | severe
deriving DecidableEq

/-- Eye-closure severity in the result (`'normal' | 'warning' | 'alert'`). -/
inductive EyeSeverity
  | normal
  | warning
  | alert
deriving DecidableEq

/-- Composite assessment level (`'none' | 'moderate' | 'severe'`). -/
inductive CompositeLevel
  | none
  | moderate
  | severe
deriving DecidableEq

/-- `result.eyeClosure`. -/
structure EyeClosureResult where
  leftEAR : ℚ
  rightEAR : ℚ
  averageEAR : ℚ
  isEyesClosed : Bool
  closureFrames : ℕ
  severity : EyeSeverity
deriving DecidableEq

/-- `result.headPose`. -/
structure HeadPoseResult where
  x : ℚ
  y : ℚ
  pitch : ℚ
  yaw : ℚ
  roll : ℚ
  turn : Level
  tilt : Level
  droop : Level
deriving DecidableEq

/-- `result.gaze`. -/
structure GazeResult where
  x : ℚ
  y : ℚ
  deviation : ℚ
  lookingAway : Bool
deriving DecidableEq

/-- `result.mouth`. -/
structure MouthResult where
  MAR : ℚ
  isYawning : Bool
  yawnCount : ℕ
deriving DecidableEq

/-- `result.hands`. -/
structure HandsResult where
  nearEar : Bool
  nearFace : Bool
  possibleTexting : Bool
  phoneUsage : Bool
deriving DecidableEq

/-- `result.drowsiness` and `result.distraction`. -/
structure AssessmentResult where
  level : CompositeLevel
  indicators : List String
deriving DecidableEq

/-- `DetectionResult`, the per-frame snapshot returned by `processFrame`. -/
structure DetectionResult where
  eyeClosure : EyeClosureResult
  headPose : HeadPoseResult
  gaze : GazeResult
  mouth : MouthResult
  hands : HandsResult
  drowsiness : AssessmentResult
  distraction : AssessmentResult
deriving DecidableEq

/-- The neutral result initialized at the top of `processFrame`
(lines 203-247): zero metrics, gaze at center (0.5, 0.5), every categorical
level none; `closureFrames` and `yawnCount` snapshot the current counters. -/
def initResult (st : EngineState) : DetectionResult :=
  { eyeClosure :=
      { leftEAR := 0, rightEAR := 0, averageEAR := 0, isEyesClosed := false
        closureFrames := st.eyeClosureCounter, severity := .normal }
    headPose :=
      { x := 0, y := 0, pitch := 0, yaw := 0, roll := 0
        turn := .none, tilt := .none, droop := .none }
    gaze := { x := 1/2, y := 1/2, deviation := 0, lookingAway := false }
    mouth := { MAR := 0, isYawning := false, yawnCount := st.yawnCounter }
    hands := { nearEar := false, nearFace := false, possibleTexting := false, phoneUsage := false }
    drowsiness := { level := .none, indicators := [] }
    distraction := { level := .none, indicators := [] } }

/-- A 2-D point with rational coordinates. -/
structure Point where
  x : ℚ
  y : ℚ
deriving DecidableEq

/-- The face-derived scalar measurements that `processFrame` computes from
the landmark array in lines 253-286, before the classifier sections run:
the normalized nose-tip landmark (`landmarks[1]`, lines 256-260), the two
`calculateEAR` results and the pixel-space midpoint of the two iris
centroids (`irisCenter`).  The nose tip is computed although its consumers
(the head-pose section, line 337 on) are unreachable; `calculateMAR` never
completes, so no MAR value exists. -/
structure FaceSignals where
  noseTip : Point
  leftEAR : ℚ
  rightEAR : ℚ
  irisCenter : Point
deriving DecidableEq

/-- Per-hand proximity predicates: the values of
`isHandNearEar(landmarks, hand.landmarks, w, h)` and
`isHandNearFace(faceCenter, hand.landmarks, w, h)` for one detected hand. -/
structure HandSignals where
  nearEar : Bool
  nearFace : Bool
deriving DecidableEq

/-- Output of the eye-closure section (lines 287-306). -/
structure EyeStepOut where
  eyeClosureCounter : ℕ
  blinkCounter : ℕ
  severity : EyeSeverity
  isEyesClosed : Bool
  alerts : List AlertData
deriving DecidableEq

/-- Eye-closure section of `processFrame` (lines 287-306): while
`averageEAR < earThreshold` and the iris is judged hidden the counter
increments, firing severe above 30 and moderate above
`eyeClosedFramesThreshold`; otherwise a just-ended run in
`[2, eyeClosedFramesThreshold)` counts as a blink and the counter resets. -/
def eyeClosureStep (cfg : DetectionConfig) (eyeClosureCounter blinkCounter : ℕ)
    (averageEAR irisYNormalized : ℚ) : EyeStepOut :=
  let irisVisible := irisYNormalized ≤ 1/2
  let eyeClosedByEAR := averageEAR < cfg.earThreshold
  if eyeClosedByEAR ∧ ¬ irisVisible then
    let c := eyeClosureCounter + 1
    if c > 30 then
      { eyeClosureCounter := c, blinkCounter := blinkCounter
        severity := .alert, isEyesClosed := true
        alerts := [⟨.eye_closure, .severe, "Alert: Eyes Closed Too Long", 9/10⟩] }
    else if c > cfg.eyeClosedFramesThreshold then
      { eyeClosureCounter := c, blinkCounter := blinkCounter
        severity := .warning, isEyesClosed := true
        alerts := [⟨.eye_closure, .moderate, "Warning: Eyes Closed", 8/10⟩] }
    else
      { eyeClosureCounter := c, blinkCounter := blinkCounter
        severity := .normal, isEyesClosed := false, alerts := [] }
  else
    { eyeClosureCounter := 0
      blinkCounter :=
        if 2 ≤ eyeClosureCounter ∧ eyeClosureCounter < cfg.eyeClosedFramesThreshold then
          blinkCounter + 1
        else blinkCounter
      severity := .normal, isEyesClosed := false, alerts := [] }

/-- Blink-rate monitoring (lines 308-315): once more than 60000 ms have
passed since `blinkTimer`, fire when the blink count reached
`blinkRateThreshold`, then reset count and timer regardless.  Returns
(new blinkCounter, new blinkTimer, alerts). -/
def blinkWindowStep (cfg : DetectionConfig) (blinkCounter : ℕ)
    (blinkTimer currentTime : ℤ) : ℕ × ℤ × List AlertData :=
  if currentTime - blinkTimer > 60000 then
    ( 0, currentTime
    , if blinkCounter ≥ cfg.blinkRateThreshold then
        [⟨.blink_rate_high, .mild, "High Blinking Rate", 7/10⟩]
      else [] )
  else (blinkCounter, blinkTimer, [])

/-- Yawning section (lines 326-334): the counter increments while
`mar > marThreshold`; whenever it exceeds `yawnThreshold` the moderate
yawning alert fires and the counter resets to 0.  Returns
(new yawnCounter, isYawning, alerts).  In the current code this section is
unreachable — every face-bearing call raises the line-320 TypeError before
it — so this definition embeds the section's own logic only. -/
def yawnStep (cfg : DetectionConfig) (yawnCounter : ℕ) (mar : ℚ) :
    ℕ × Bool × List AlertData :=
  let c := if mar > cfg.marThreshold then yawnCounter + 1 else yawnCounter
  if c > cfg.yawnThreshold then
    (0, true, [⟨.yawning, .moderate, "Warning: Yawning", 8/10⟩])
  else (c, false, [])

/-- Numeric eye-closure severity of line 435 (alert 2, warning 1, else 0). -/
def eyeClosureSeverityNum (s : EyeSeverity) : ℕ :=
  match s with
  | .alert => 2
  | .warning => 1
  | .normal => 0

/-- Numeric severity of a categorical level as in lines 436 and 449-450
(severe 3, moderate 2, mild 1, none 0). -/
def levelNum (l : Level) : ℕ :=
  match l with
  | .severe => 3
  | .moderate => 2
  | .mild => 1
  | .none => 0

/-- Composite drowsiness assessment (lines 434-446) — unreachable in the
current code (the line-320 TypeError precedes it); this definition embeds
the section's own logic only. -/
def drowsinessStep (eyeSeverity : EyeSeverity) (droop : Level) (isYawning : Bool) :
    AssessmentResult × List AlertData :=
  let eyeClosureSeverity := eyeClosureSeverityNum eyeSeverity
  let headDroopSeverity := levelNum droop
  if eyeClosureSeverity ≥ 2 ∧ (headDroopSeverity ≥ 1 ∨ isYawning) then
    ( { level := .severe
        indicators := ["prolonged eye closure",
          if headDroopSeverity ≥ 1 then "head droop" else "yawning"] }
    , [⟨.drowsiness, .severe, "Severe DROWSINESS Observed", 95/100⟩] )
  else if eyeClosureSeverity ≥ 1 ∧ (headDroopSeverity ≥ 1 ∨ isYawning) then
    ( { level := .moderate
        indicators := ["eye closure",
          if headDroopSeverity ≥ 1 then "head droop" else "yawning"] }
    , [⟨.drowsiness, .moderate, "Moderate DROWSINESS Observed", 85/100⟩] )
  else ({ level := .none, indicators := [] }, [])

/-- The output of a completed `processFrame` call: the successor engine
state, the returned `DetectionResult`, and the alerts passed to
`triggerAlert`, in emission order (one entry per `triggerAlert` call; each
is delivered to every registered callback).  Only the no-face path
(lines 249-251) completes; see `processFrame`. -/
structure FrameOutput where
  state : EngineState
  result : DetectionResult
  alerts : List AlertData
deriving DecidableEq

/-- The observable effects of a face-bearing `processFrame` call at the
moment the line-320 TypeError propagates to the caller: the engine state
as mutated so far (the eye-closure and blink sections have run; the yawn
counter and the MAR history are untouched, `marHistory.push` at line 323
coming after the throw) and the alerts already delivered synchronously to
the subscribers. -/
structure FrameCrash where
  state : EngineState
  alerts : List AlertData
deriving DecidableEq

/-- The mouth landmark index list `MOUTH` of line 318. -/
def MOUTH : List ℕ := [13, 14, 78, 308]

/-- `processFrame` (lines 193-464).  A `none` face (no face result or
missing landmarks) returns the neutral result unchanged (lines 249-251).
With a face present, the eye-closure section (lines 287-306) and the
blink-rate window (lines 309-315) run and mutate their counters, and then
the call aborts: line 318 builds the 4-element slice
`mouthLandmarks = MOUTH.map(i => landmarks[i])` and line 320 passes it to
`calculateMAR`, which reads `mouthLandmarks[13]`, `[14]`, `[78]` and
`[308]` — all out of bounds (see `mouth_slice_access_out_of_bounds`) — so
`mouthLandmarks[index].x` raises a TypeError on every face-bearing call.
The sections after line 320 (MAR history, yawning, head pose, gaze, hands,
composite assessments) are unreachable.  The `.error` value carries the
uncaught exception's observable effects. -/
def processFrame (st : EngineState) (faceResult : Option FaceSignals)
    (handResults : List HandSignals) (frameWidth frameHeight : ℚ)
    (currentTime : ℤ) : Except FrameCrash FrameOutput :=
  match faceResult with
  | none => .ok { state := st, result := initResult st, alerts := [] }
  | some face =>
    let averageEAR := (face.leftEAR + face.rightEAR) / 2
    let irisYNormalized := face.irisCenter.y / frameHeight
    let eye := eyeClosureStep st.config st.eyeClosureCounter st.blinkCounter
      averageEAR irisYNormalized
    let blink := blinkWindowStep st.config eye.blinkCounter st.blinkTimer currentTime
    .error
      { state :=
          { st with
            eyeClosureCounter := eye.eyeClosureCounter
            blinkCounter := blink.1
            blinkTimer := blink.2.1 }
        alerts := eye.alerts ++ blink.2.2 }

/-- The engine state after a `processFrame` call: the instance's fields
persist whether the call returned normally or threw. -/
def stateAfter (out : Except FrameCrash FrameOutput) : EngineState :=
  match out with
  | .ok o => o.state
  | .error e => e.state

/-- The alerts delivered to the subscribers during a `processFrame` call,
including those delivered before an uncaught TypeError. -/
def alertsOf (out : Except FrameCrash FrameOutput) : List AlertData :=
  match out with
  | .ok o => o.alerts
  | .error e => e.alerts

/-- Feed the same frame to the engine `n` times, keeping only the evolving
state (the instance's state persists across throwing calls). -/
def runSame (face : Option FaceSignals) (hands : List HandSignals)
    (frameWidth frameHeight : ℚ) (currentTime : ℤ) :
    EngineState → ℕ → EngineState
  | st, 0 => st
  | st, n + 1 =>
    runSame face hands frameWidth frameHeight currentTime
      (stateAfter (processFrame st face hands frameWidth frameHeight currentTime)) n

/-!
Concrete scenario inputs used by the claims below.  Frame width and height
are taken as 1, so normalized and pixel coordinates coincide.
-/

/-- A face with both eyes nearly shut: average EAR 0.10 (below the 0.140
threshold) and the iris centroid at 60% of the frame height (judged
hidden), mouth closed. -/
def closedFace : FaceSignals :=
  { noseTip := ⟨1/2, 1/2⟩, leftEAR := 1/10, rightEAR := 1/10
    irisCenter := ⟨1/2, 3/5⟩ }

/-- A face with open eyes: average EAR 0.30 and a visible iris centroid at
40% of the frame height, mouth closed. -/
def openFace : FaceSignals :=
  { noseTip := ⟨1/2, 1/2⟩, leftEAR := 3/10, rightEAR := 3/10
    irisCenter := ⟨1/2, 2/5⟩ }

/-- A fresh engine with the default configuration, constructed at time 0. -/
def freshEngine : EngineState := mkEngine DEFAULT_CONFIG 0

/-- State after feeding `n` closed-eye frames (`closedFace`, no hands, at
time 0) to the fresh engine. -/
def c2State (n : ℕ) : EngineState :=
  runSame (some closedFace) [] 1 1 0 freshEngine n

/-- Output of the `(n+1)`-st closed-eye frame of the same scenario. -/
def c2Out (n : ℕ) : Except FrameCrash FrameOutput :=
  processFrame (c2State n) (some closedFace) [] 1 1 0

/-- Engine mid-blink: an eye-closure run of length 5 is in progress. -/
def blinkingState : EngineState := { freshEngine with eyeClosureCounter := 5 }

/-- Engine on the verge of the severe eye-closure tier (counter 30) with
the yawn counter at its threshold. -/
def drowsyState : EngineState :=
  { freshEngine with eyeClosureCounter := 30, yawnCounter := 3 }

/-- Engine holding a positive yawn counter below the firing threshold. -/
def midYawnState : EngineState := { freshEngine with yawnCounter := 2 }

/-- The fresh engine with one registered alert callback. -/
def oneSubscriberEngine : EngineState := addAlertCallback freshEngine

/-- A face with an extreme nose-tip offset (nose tip at (0.9, 0.5), eyes
open, iris centroid far right). -/
def extremeFace : FaceSignals :=
  { noseTip := ⟨9/10, 1/2⟩, leftEAR := 3/10, rightEAR := 3/10
    irisCenter := ⟨9/10, 2/5⟩ }

/-- The fresh engine calibrated at gaze center 0.5 and head center
(0.5, 0.5). -/
def calibratedEngine : EngineState := setCalibration freshEngine (1/2) (1/2) (1/2)

/-- The moderate eye-closure alert record (line 299). -/
def eyeClosureModerateAlert : AlertData :=
  ⟨.eye_closure, .moderate, "Warning: Eyes Closed", 8/10⟩

/-!
Geometry extractors (`calculateEAR`, lines 65-81; `calculateMAR`,
lines 84-100).  `Math.hypot` is the Euclidean norm, so this layer lives
over `ℝ`.  A landmark array is modelled as a total function from indices to
normalized points; the spec declares undersized arrays a contract violation
of the Landmark Provider, so indexing is total here.
-/

/-- A landmark with real normalized coordinates. -/
structure LandmarkR where
  x : ℝ
  y : ℝ

/-- `Math.hypot(x, y)`. -/
noncomputable def hypotR (x y : ℝ) : ℝ := Real.sqrt (x ^ 2 + y ^ 2)

/-- The denormalized point `getPoint(index)` used by both extractors. -/
def getPointR (lms : ℕ → LandmarkR) (frameWidth frameHeight : ℝ) (index : ℕ) :
    LandmarkR :=
  { x := (lms index).x * frameWidth, y := (lms index).y * frameHeight }

/-- The horizontal eye width `C = hypot(p1 - p4)` of `calculateEAR`, where
`p1 = getPoint(1)` and `p4 = getPoint(4)`. -/
noncomputable def earHorizontal (eyeLandmarks : ℕ → LandmarkR)
    (frameWidth frameHeight : ℝ) : ℝ :=
  let p1 := getPointR eyeLandmarks frameWidth frameHeight 1
  let p4 := getPointR eyeLandmarks frameWidth frameHeight 4
  hypotR (p1.x - p4.x) (p1.y - p4.y)

/-- The vertical distance sum `A + B` of `calculateEAR`, with
`A = hypot(p2 - p6)` and `B = hypot(p3 - p5)` for `p2 = getPoint(5)`,
`p6 = getPoint(3)`, `p3 = getPoint(2)`, `p5 = getPoint(0)`. -/
noncomputable def earVerticalSum (eyeLandmarks : ℕ → LandmarkR)
    (frameWidth frameHeight : ℝ) : ℝ :=
  let p2 := getPointR eyeLandmarks frameWidth frameHeight 5
  let p3 := getPointR eyeLandmarks frameWidth frameHeight 2
  let p5 := getPointR eyeLandmarks frameWidth frameHeight 0
  let p6 := getPointR eyeLandmarks frameWidth frameHeight 3
  hypotR (p2.x - p6.x) (p2.y - p6.y) + hypotR (p3.x - p5.x) (p3.y - p5.y)

/-- `calculateEAR` (lines 65-81): denormalize the six eye landmarks (index
order `[1, 5, 2, 4, 0, 3]` becomes `p1..p6`) and return `(A + B) / (2 C)`
when the horizontal distance `C` is positive, and 0 otherwise. -/
noncomputable def calculateEAR (eyeLandmarks : ℕ → LandmarkR)
    (frameWidth frameHeight : ℝ) : ℝ :=
  let A_B := earVerticalSum eyeLandmarks frameWidth frameHeight
  let C := earHorizontal eyeLandmarks frameWidth frameHeight
  if C > 0 then A_B / (2 * C) else 0

/-- The horizontal mouth width `hypot(left - right)` of `calculateMAR`,
with `left = getPoint(78)` and `right = getPoint(308)`. -/
noncomputable def marHorizontal (mouthLandmarks : ℕ → LandmarkR)
    (frameWidth frameHeight : ℝ) : ℝ :=
  let left := getPointR mouthLandmarks frameWidth frameHeight 78
  let right := getPointR mouthLandmarks frameWidth frameHeight 308
  hypotR (left.x - right.x) (left.y - right.y)

/-- The vertical mouth opening `hypot(top - bottom)` of `calculateMAR`,
with `top = getPoint(13)` and `bottom = getPoint(14)`. -/
noncomputable def marVertical (mouthLandmarks : ℕ → LandmarkR)
    (frameWidth frameHeight : ℝ) : ℝ :=
  let top := getPointR mouthLandmarks frameWidth frameHeight 13
  let bottom := getPointR mouthLandmarks frameWidth frameHeight 14
  hypotR (top.x - bottom.x) (top.y - bottom.y)

/-- `calculateMAR` (lines 84-100): vertical mouth opening over horizontal
mouth width when the width is positive, and 0 otherwise. -/
noncomputable def calculateMAR (mouthLandmarks : ℕ → LandmarkR)
    (frameWidth frameHeight : ℝ) : ℝ :=
  let vertical := marVertical mouthLandmarks frameWidth frameHeight
  let horizontal := marHorizontal mouthLandmarks frameWidth frameHeight
  if horizontal > 0 then vertical / horizontal else 0

/-- All-zero landmark array: every landmark at the origin, collapsing all
pairwise distances to 0. -/
def zeroLandmarks : ℕ → LandmarkR := fun _ => ⟨0, 0⟩

/-- Landmark array with distinct x-coordinates (`x = index`, `y = 0`),
giving positive horizontal widths to both extractors. -/
def spreadLandmarks : ℕ → LandmarkR := fun index => ⟨(index : ℝ), 0⟩

/-!
Cooldown-gated alert dispatch of the `FaceDetectionProcessor` component
(`src/unnamed/part_010`): the drowsiness and yawning alerts share the
`lastAlertTime` gate, while phone-use and distraction each have their own
timestamp, all against `ALERT_COOLDOWN` (3000 ms; an older variant of the
component uses 5000 ms and only the shared gate).  Each trigger function
returns the new state and the number of alerts actually dispatched.
-/

/-- The cooldown-relevant fields of the component's `DetectionState`. -/
structure ProcessorState where
  lastAlertTime : ℤ
  lastPhoneAlertTime : ℤ
  lastDistractionAlertTime : ℤ
deriving DecidableEq

/-- `ALERT_COOLDOWN` of the `FaceDetectionProcessor` (3000 ms). -/
def ALERT_COOLDOWN : ℤ := 3000

/-- `triggerDrowsinessAlert`: suppressed within `ALERT_COOLDOWN` of
`lastAlertTime`, otherwise dispatches one alert and stamps the gate. -/
def triggerDrowsinessAlert (st : ProcessorState) (now : ℤ) : ProcessorState × ℕ :=
  if now - st.lastAlertTime < ALERT_COOLDOWN then (st, 0)
  else ({ st with lastAlertTime := now }, 1)

/-- `triggerYawnAlert`: gated by the same `lastAlertTime` as drowsiness. -/
def triggerYawnAlert (st : ProcessorState) (now : ℤ) : ProcessorState × ℕ :=
  if now - st.lastAlertTime < ALERT_COOLDOWN then (st, 0)
  else ({ st with lastAlertTime := now }, 1)

/-- `triggerPhoneUseAlert`: gated by its own `lastPhoneAlertTime`. -/
def triggerPhoneUseAlert (st : ProcessorState) (now : ℤ) : ProcessorState × ℕ :=
  if now - st.lastPhoneAlertTime < ALERT_COOLDOWN then (st, 0)
  else ({ st with lastPhoneAlertTime := now }, 1)

/-- `triggerDistractionAlert`: gated by its own `lastDistractionAlertTime`. -/
def triggerDistractionAlert (st : ProcessorState) (now : ℤ) : ProcessorState × ℕ :=
  if now - st.lastDistractionAlertTime < ALERT_COOLDOWN then (st, 0)
  else ({ st with lastDistractionAlertTime := now }, 1)

/-!
Helper lemmas: the alert categories the live sections can emit, and the
explicit form of `processFrame` on a present face.
-/

theorem eyeClosureStep_alert_types (cfg : DetectionConfig) (ec bc : ℕ) (ear iy : ℚ) :
    ∀ a ∈ (eyeClosureStep cfg ec bc ear iy).alerts, a.type = AlertType.eye_closure := by
  intro a ha
  simp only [eyeClosureStep] at ha
  repeat' split_ifs at ha
  all_goals simp_all

theorem blinkWindowStep_alert_types (cfg : DetectionConfig) (bc : ℕ) (bt t : ℤ) :
    ∀ a ∈ (blinkWindowStep cfg bc bt t).2.2, a.type = AlertType.blink_rate_high := by
  intro a ha
  simp only [blinkWindowStep] at ha
  repeat' split_ifs at ha
  all_goals simp_all

/-- Lists whose members all avoid category `T` filter to the empty list. -/
theorem filter_not_type (T : AlertType) (l : List AlertData)
    (h : ∀ a ∈ l, a.type ≠ T) : l.filter (fun a => a.type = T) = [] := by
  rw [List.filter_eq_nil_iff]
  intro a ha
  simpa using h a ha

/-- The slice built at line 318 has four entries, so every index that
`calculateMAR` reads from it (13, 14, 78 and 308) is out of bounds:
`mouthLandmarks[13]` is undefined and reading `.x` on it raises the
TypeError. -/
theorem mouth_slice_access_out_of_bounds (f : ℕ → LandmarkR) :
    (MOUTH.map f).length = 4 ∧
    (MOUTH.map f).get? 13 = none ∧ (MOUTH.map f).get? 14 = none ∧
    (MOUTH.map f).get? 78 = none ∧ (MOUTH.map f).get? 308 = none :=
  ⟨rfl, rfl, rfl, rfl, rfl⟩

/-- One explicit unfolding of `processFrame` on a present face: the call
errors, carrying the eye-closure and blink-window mutations and the alerts
those two sections delivered. -/
theorem processFrame_face (st : EngineState) (face : FaceSignals)
    (hands : List HandSignals) (w h : ℚ) (t : ℤ) :
    processFrame st (some face) hands w h t =
      .error
        { state :=
            { st with
              eyeClosureCounter :=
                (eyeClosureStep st.config st.eyeClosureCounter st.blinkCounter
                  ((face.leftEAR + face.rightEAR) / 2)
                  (face.irisCenter.y / h)).eyeClosureCounter
              blinkCounter :=
                (blinkWindowStep st.config
                  (eyeClosureStep st.config st.eyeClosureCounter st.blinkCounter
                    ((face.leftEAR + face.rightEAR) / 2)
                    (face.irisCenter.y / h)).blinkCounter
                  st.blinkTimer t).1
              blinkTimer :=
                (blinkWindowStep st.config
                  (eyeClosureStep st.config st.eyeClosureCounter st.blinkCounter
                    ((face.leftEAR + face.rightEAR) / 2)
                    (face.irisCenter.y / h)).blinkCounter
                  st.blinkTimer t).2.1 }
          alerts :=
            (eyeClosureStep st.config st.eyeClosureCounter st.blinkCounter
                ((face.leftEAR + face.rightEAR) / 2)
                (face.irisCenter.y / h)).alerts ++
              (blinkWindowStep st.config
                (eyeClosureStep st.config st.eyeClosureCounter st.blinkCounter
                  ((face.leftEAR + face.rightEAR) / 2)
                  (face.irisCenter.y / h)).blinkCounter
                st.blinkTimer t).2.2 } := rfl

/-- Every face-bearing `processFrame` call ends in the line-320 TypeError
rather than returning a result. -/
theorem processFrame_face_throws (st : EngineState) (face : FaceSignals)
    (hands : List HandSignals) (w h : ℚ) (t : ℤ) :
    (processFrame st (some face) hands w h t).isOk = false := by
  rw [processFrame_face]
  rfl

/-- The only alerts a face-bearing call can deliver before the throw are
eye-closure and blink-rate alerts. -/
theorem processFrame_face_alert_types (st : EngineState) (face : FaceSignals)
    (hands : List HandSignals) (w h : ℚ) (t : ℤ) :
    ∀ a ∈ alertsOf (processFrame st (some face) hands w h t),
      a.type = AlertType.eye_closure ∨ a.type = AlertType.blink_rate_high := by
  intro a ha
  rw [processFrame_face] at ha
  simp only [alertsOf, List.mem_append] at ha
  rcases ha with ha | ha
  · exact Or.inl (eyeClosureStep_alert_types _ _ _ _ _ a ha)
  · exact Or.inr (blinkWindowStep_alert_types _ _ _ _ a ha)

/-- C2: with the default configuration (earThreshold 0.140,
eyeClosedFramesThreshold 9), feeding `processFrame` twelve consecutive
frames with average EAR 0.10 and the iris hidden delivers no eye-closure
alert on frames 1-9, delivers exactly one moderate eye-closure alert at
frame 10 (when the counter becomes 10), delivers no severe-tier alert on
any of the twelve frames, and leaves the eye-closure counter at exactly 12
after frame 12.  Each of the twelve calls itself ends in the line-320
TypeError (`isOk` false): the alerts counted here are those dispatched to
the subscribers, and the counter mutations those applied, before the
throw. -/
theorem c2_twelve_closed_frames :
    ((List.range 9).map
        (fun i => (alertsOf (c2Out i)).filter (fun a => a.type = AlertType.eye_closure)) =
      List.replicate 9 []) ∧
    (alertsOf (c2Out 9)).filter (fun a => a.type = AlertType.eye_closure) =
      [eyeClosureModerateAlert] ∧
    ((List.range 12).map
        (fun i => (alertsOf (c2Out i)).filter (fun a => a.severity = Severity.severe)) =
      List.replicate 12 []) ∧
    (c2State 12).eyeClosureCounter = 12 ∧
    ((List.range 12).map (fun i => (c2Out i).isOk) = List.replicate 12 false) :=
  ⟨by decide, by decide, by decide, by decide, by decide⟩

/-- C6: for every engine state, a `processFrame` call with no face
detected (null face result or missing landmarks) returns normally — the
early return of lines 249-251 precedes the line-320 crash point — with the
neutral default result (average EAR 0, MAR 0, gaze at the center
(0.5, 0.5), every categorical level none), emits no alerts, and leaves the
engine state unchanged. -/
theorem c6_no_face_neutral_defaults (st : EngineState) (hands : List HandSignals)
    (w h : ℚ) (t : ℤ) :
    processFrame st none hands w h t =
        Except.ok { state := st, result := initResult st, alerts := [] } ∧
    (initResult st).eyeClosure.averageEAR = 0 ∧
    (initResult st).eyeClosure.leftEAR = 0 ∧
    (initResult st).eyeClosure.rightEAR = 0 ∧
    (initResult st).mouth.MAR = 0 ∧
    (initResult st).gaze.x = 1/2 ∧
    (initResult st).gaze.y = 1/2 ∧
    (initResult st).gaze.deviation = 0 ∧
    (initResult st).eyeClosure.severity = EyeSeverity.normal ∧
    (initResult st).eyeClosure.isEyesClosed = false ∧
    (initResult st).headPose.turn = Level.none ∧
    (initResult st).headPose.tilt = Level.none ∧
    (initResult st).headPose.droop = Level.none ∧
    (initResult st).mouth.isYawning = false ∧
    (initResult st).gaze.lookingAway = false ∧
    (initResult st).drowsiness.level = CompositeLevel.none ∧
    (initResult st).distraction.level = CompositeLevel.none :=
  ⟨rfl, rfl, rfl, rfl, rfl, rfl, rfl, rfl, rfl, rfl, rfl, rfl, rfl, rfl, rfl, rfl, rfl⟩

/-- C10: `reset` zeroes the three counters, restarts the blink-window timer
at the passed wall-clock time, zero-fills the MAR history in place (keeping
its length, 30 for an engine built by the constructor), and leaves the
configuration, the calibration snapshot, the isCalibrated flag and the
registered callback count unchanged. -/
theorem c10_reset_effects (st : EngineState) (now : ℤ) :
    (reset st now).eyeClosureCounter = 0 ∧
    (reset st now).blinkCounter = 0 ∧
    (reset st now).yawnCounter = 0 ∧
    (reset st now).blinkTimer = now ∧
    (reset st now).marHistory = List.replicate st.marHistory.length 0 ∧
    (reset st now).marHistory.length = st.marHistory.length ∧
    (reset st now).config = st.config ∧
    (reset st now).calibrationData = st.calibrationData ∧
    (reset st now).isCalibrated = st.isCalibrated ∧
    (reset st now).alertCallbacks = st.alertCallbacks ∧
    (∀ cfg : DetectionConfig, ∀ t0 : ℤ,
      (reset (mkEngine cfg t0) now).marHistory = List.replicate 30 0) := by
  refine ⟨rfl, rfl, rfl, rfl, List.map_const' _ _, ?_, rfl, rfl, rfl, rfl, ?_⟩
  · simp [reset]
  · intro cfg t0
    simp [reset, mkEngine]

/-- C8 (code bug): the yawning section the claim describes (lines 326-334)
would emit exactly one moderate 'Warning: Yawning' alert and reset the
counter whenever the incremented counter exceeds `yawnThreshold` — shown
here on the section's own logic with the default thresholds, counter 3 and
MAR 0.7 — but the section is unreachable: every face-bearing call throws
the line-320 TypeError first, so no call ever delivers a yawning alert or
touches the yawn counter (counter 3 stays 3). -/
theorem c8_yawning_section_dead_code :
    (∀ (st : EngineState) (face : FaceSignals) (hands : List HandSignals)
      (w h : ℚ) (t : ℤ),
      (processFrame st (some face) hands w h t).isOk = false ∧
      (alertsOf (processFrame st (some face) hands w h t)).filter
        (fun a => a.type = AlertType.yawning) = [] ∧
      (stateAfter (processFrame st (some face) hands w h t)).yawnCounter =
        st.yawnCounter) ∧
    yawnStep DEFAULT_CONFIG 3 (7/10) =
      (0, true, [⟨AlertType.yawning, Severity.moderate, "Warning: Yawning", 8/10⟩]) ∧
    (processFrame drowsyState (some closedFace) [] 1 1 0).isOk = false ∧
    (alertsOf (processFrame drowsyState (some closedFace) [] 1 1 0)).filter
      (fun a => a.type = AlertType.yawning) = [] ∧
    (stateAfter (processFrame drowsyState (some closedFace) [] 1 1 0)).yawnCounter = 3 := by
  refine ⟨?_, by decide, by decide, by decide, by decide⟩
  intro st face hands w h t
  refine ⟨processFrame_face_throws st face hands w h t, ?_, ?_⟩
  · exact filter_not_type _ _ (fun a ha => by
      rcases processFrame_face_alert_types st face hands w h t a ha with h1 | h1 <;>
        simp [h1])
  · rw [processFrame_face]
    rfl

/-- C9 counterexample: with a face present, a positive yawn counter of 2
and (in intent) a closed mouth, the yawn counter stays at its previous
positive value — it neither decreases nor resets — and no yawning alert is
delivered; the call itself ends in the line-320 TypeError before the yawn
condition is ever evaluated. -/
theorem c9_counterexample :
    midYawnState.yawnCounter = 2 ∧
    (processFrame midYawnState (some openFace) [] 1 1 0).isOk = false ∧
    (alertsOf (processFrame midYawnState (some openFace) [] 1 1 0)).filter
      (fun a => a.type = AlertType.yawning) = [] ∧
    (stateAfter (processFrame midYawnState (some openFace) [] 1 1 0)).yawnCounter = 2 ∧
    ¬ ((stateAfter (processFrame midYawnState (some openFace) [] 1 1 0)).yawnCounter <
          midYawnState.yawnCounter ∨
        (stateAfter (processFrame midYawnState (some openFace) [] 1 1 0)).yawnCounter = 0) := by
  decide

/-- C9 amended: the eye-closure counter does reset on every
condition-false frame (its section runs before the crash point), but the
yawn counter is never touched at all: every face-bearing call throws the
line-320 TypeError before `if (mar > marThreshold)` is evaluated, so the
counter neither increments, nor decays, nor resets — it keeps exactly its
carried-in value, and no yawning alert is ever delivered. -/
theorem c9_yawn_counter_untouched (st : EngineState) (face : FaceSignals)
    (hands : List HandSignals) (w h : ℚ) (t : ℤ) :
    (stateAfter (processFrame st (some face) hands w h t)).yawnCounter =
        st.yawnCounter ∧
    (alertsOf (processFrame st (some face) hands w h t)).filter
        (fun a => a.type = AlertType.yawning) = [] ∧
    (¬ ((face.leftEAR + face.rightEAR) / 2 < st.config.earThreshold ∧
        ¬ (face.irisCenter.y / h ≤ 1/2)) →
      (stateAfter (processFrame st (some face) hands w h t)).eyeClosureCounter = 0) := by
  refine ⟨?_, ?_, ?_⟩
  · rw [processFrame_face]
    rfl
  · exact filter_not_type _ _ (fun a ha => by
      rcases processFrame_face_alert_types st face hands w h t a ha with h1 | h1 <;>
        simp [h1])
  · intro hcond
    have heye : eyeClosureStep st.config st.eyeClosureCounter st.blinkCounter
        ((face.leftEAR + face.rightEAR) / 2) (face.irisCenter.y / h) =
        { eyeClosureCounter := 0
          blinkCounter :=
            if 2 ≤ st.eyeClosureCounter ∧
                st.eyeClosureCounter < st.config.eyeClosedFramesThreshold then
              st.blinkCounter + 1
            else st.blinkCounter
          severity := .normal, isEyesClosed := false, alerts := [] } := by
      unfold eyeClosureStep
      rw [if_neg hcond]
    rw [processFrame_face]
    dsimp only [stateAfter]
    rw [heye]

/-- C9 witness: the amended statement at the concrete counterexample
input (yawn counter 2 kept, eye-closure counter reset by the open-eyed
frame). -/
theorem c9_yawn_counter_untouched_witness :
    (stateAfter (processFrame midYawnState (some openFace) [] 1 1 0)).yawnCounter =
        midYawnState.yawnCounter ∧
    (stateAfter (processFrame midYawnState (some openFace) [] 1 1 0)).eyeClosureCounter =
        0 :=
  ⟨(c9_yawn_counter_untouched midYawnState openFace [] 1 1 0).1,
   (c9_yawn_counter_untouched midYawnState openFace [] 1 1 0).2.2 (by decide)⟩

/-- C3 counterexample: a frame that ends a 5-frame eye-closure run (within
[2, 9)) but whose timestamp also closes the 60-second blink window leaves
`blinkCounter` at 0, not incremented by 1: the window reset in the same
call cancels the increment.  (Both sections run before the line-320
TypeError in which the call then ends; the state read is the engine
instance's after that call.) -/
theorem c3_counterexample :
    blinkingState.eyeClosureCounter = 5 ∧
    (2 ≤ blinkingState.eyeClosureCounter ∧
      blinkingState.eyeClosureCounter < blinkingState.config.eyeClosedFramesThreshold) ∧
    ¬ ((openFace.leftEAR + openFace.rightEAR) / 2 < blinkingState.config.earThreshold ∧
      ¬ (openFace.irisCenter.y / 1 ≤ 1/2)) ∧
    (stateAfter (processFrame blinkingState (some openFace) [] 1 1 60001)).eyeClosureCounter =
      0 ∧
    ¬ ((stateAfter (processFrame blinkingState (some openFace) [] 1 1 60001)).blinkCounter =
        blinkingState.blinkCounter + 1) := by
  decide

/-- C3 amended: when a face-bearing frame ends a run of qualifying
eye-closure frames (its own condition is false), the eye-closure counter
resets to 0, and — provided the 60-second blink window does not also
elapse at that frame's timestamp — the blink counter is incremented by
exactly 1 if and only if the ended run length lies in
[2, eyeClosedFramesThreshold).  Both sections complete before the
line-320 TypeError in which the call then ends; the state spoken about is
the engine instance's after the call. -/
theorem c3_blink_counted_on_run_end (st : EngineState) (face : FaceSignals)
    (hands : List HandSignals) (w h : ℚ) (t : ℤ)
    (hcond : ¬ ((face.leftEAR + face.rightEAR) / 2 < st.config.earThreshold ∧
      ¬ (face.irisCenter.y / h ≤ 1/2))) :
    (stateAfter (processFrame st (some face) hands w h t)).eyeClosureCounter = 0 ∧
    (t - st.blinkTimer ≤ 60000 →
      ((stateAfter (processFrame st (some face) hands w h t)).blinkCounter =
          st.blinkCounter + 1 ↔
        2 ≤ st.eyeClosureCounter ∧
          st.eyeClosureCounter < st.config.eyeClosedFramesThreshold)) := by
  have heye : eyeClosureStep st.config st.eyeClosureCounter st.blinkCounter
      ((face.leftEAR + face.rightEAR) / 2) (face.irisCenter.y / h) =
      { eyeClosureCounter := 0
        blinkCounter :=
          if 2 ≤ st.eyeClosureCounter ∧
              st.eyeClosureCounter < st.config.eyeClosedFramesThreshold then
            st.blinkCounter + 1
          else st.blinkCounter
        severity := .normal, isEyesClosed := false, alerts := [] } := by
    unfold eyeClosureStep
    rw [if_neg hcond]
  constructor
  · rw [processFrame_face]
    dsimp only [stateAfter]
    rw [heye]
  · intro hwin
    rw [processFrame_face]
    dsimp only [stateAfter]
    rw [heye]
    unfold blinkWindowStep
    rw [if_neg (by omega : ¬ t - st.blinkTimer > 60000)]
    dsimp only
    by_cases hrun : 2 ≤ st.eyeClosureCounter ∧
      st.eyeClosureCounter < st.config.eyeClosedFramesThreshold
    · rw [if_pos hrun]
      exact iff_of_true rfl hrun
    · rw [if_neg hrun]
      exact iff_of_false (by omega) hrun

/-- C3 witness: a 5-frame run ended by an open-eyed frame inside the blink
window increments the blink counter from 0 to 1 and resets the eye-closure
counter. -/
theorem c3_blink_counted_on_run_end_witness :
    (stateAfter (processFrame blinkingState (some openFace) [] 1 1 0)).eyeClosureCounter =
        0 ∧
    ((stateAfter (processFrame blinkingState (some openFace) [] 1 1 0)).blinkCounter =
        blinkingState.blinkCounter + 1 ↔
      2 ≤ blinkingState.eyeClosureCounter ∧
        blinkingState.eyeClosureCounter < blinkingState.config.eyeClosedFramesThreshold) :=
  ⟨(c3_blink_counted_on_run_end blinkingState openFace [] 1 1 0 (by decide)).1,
   (c3_blink_counted_on_run_end blinkingState openFace [] 1 1 0 (by decide)).2
      (by decide)⟩

/-- C7 (code bug): the intended both-alerts frame — severe eye closure
with (in intent) active yawning — dispatches the severe eye-closure alert
and then throws the line-320 TypeError, so the drowsiness composite
(lines 434-446) never runs and no `processFrame` call ever dispatches a
drowsiness alert.  On the dead section's own logic, the composite is
severe exactly when eyeClosureSeverity is at least 2 with a secondary
indicator (head droop or yawning) and moderate exactly when
eyeClosureSeverity is exactly 1 with a secondary indicator. -/
theorem c7_drowsiness_composite_dead_code :
    (processFrame drowsyState (some closedFace) [] 1 1 0).isOk = false ∧
    alertsOf (processFrame drowsyState (some closedFace) [] 1 1 0) =
      [⟨AlertType.eye_closure, Severity.severe, "Alert: Eyes Closed Too Long", 9/10⟩] ∧
    (∀ (st : EngineState) (face : FaceSignals) (hands : List HandSignals)
      (w h : ℚ) (t : ℤ),
      (alertsOf (processFrame st (some face) hands w h t)).filter
        (fun a => a.type = AlertType.drowsiness) = []) ∧
    (∀ (es : EyeSeverity) (droop : Level) (y : Bool),
      ((drowsinessStep es droop y).1.level = CompositeLevel.severe ↔
        2 ≤ eyeClosureSeverityNum es ∧ (1 ≤ levelNum droop ∨ y = true)) ∧
      ((drowsinessStep es droop y).1.level = CompositeLevel.moderate ↔
        eyeClosureSeverityNum es = 1 ∧ (1 ≤ levelNum droop ∨ y = true))) := by
  refine ⟨by decide, by decide, ?_, ?_⟩
  · intro st face hands w h t
    exact filter_not_type _ _ (fun a ha => by
      rcases processFrame_face_alert_types st face hands w h t a ha with h1 | h1 <;>
        simp [h1])
  · intro es droop y
    cases es <;> cases droop <;> cases y <;> decide

/-- C4 (code bug): no face-bearing `processFrame` call, calibrated or
not, ever reaches the head-pose/gaze section (lines 343-408): the call
throws the line-320 TypeError first.  The uncalibrated half of the claim
holds, but a calibrated engine with a nose-tip offset far beyond
`headTurnThreshold` also yields zero head-turn, head-droop and
gaze-deviation alerts — against the claim's calibrated half. -/
theorem c4_head_gaze_section_unreachable :
    (∀ (st : EngineState) (face : FaceSignals) (hands : List HandSignals)
      (w h : ℚ) (t : ℤ),
      (processFrame st (some face) hands w h t).isOk = false ∧
      (alertsOf (processFrame st (some face) hands w h t)).filter
        (fun a => a.type = AlertType.head_turn) = [] ∧
      (alertsOf (processFrame st (some face) hands w h t)).filter
        (fun a => a.type = AlertType.head_droop) = [] ∧
      (alertsOf (processFrame st (some face) hands w h t)).filter
        (fun a => a.type = AlertType.gaze_deviation) = []) ∧
    calibratedEngine.isCalibrated = true ∧
    |extremeFace.noseTip.x - (1/2 : ℚ)| > calibratedEngine.config.headTurnThreshold ∧
    (processFrame calibratedEngine (some extremeFace) [] 1 1 0).isOk = false ∧
    (alertsOf (processFrame calibratedEngine (some extremeFace) [] 1 1 0)).filter
      (fun a => a.type = AlertType.head_turn) = [] := by
  refine ⟨?_, by decide, by decide, by decide, by decide⟩
  intro st face hands w h t
  refine ⟨processFrame_face_throws st face hands w h t, ?_, ?_, ?_⟩
  all_goals
    exact filter_not_type _ _ (fun a ha => by
      rcases processFrame_face_alert_types st face hands w h t a ha with h1 | h1 <;>
        simp [h1])

/-- C1 counterexample: `DetectionEngine.triggerAlert` consults no clock and
no per-category state, so two trigger calls for the same category on an
engine with one subscriber — however close together in time — deliver two
alerts to the subscribers, not exactly one. -/
theorem c1_counterexample :
    ((triggerAlert oneSubscriberEngine AlertType.eye_closure Severity.moderate
          "Warning: Eyes Closed" (8/10)).2 ++
        (triggerAlert oneSubscriberEngine AlertType.eye_closure Severity.moderate
          "Warning: Eyes Closed" (8/10)).2).length = 2 ∧
    ¬ (((triggerAlert oneSubscriberEngine AlertType.eye_closure Severity.moderate
          "Warning: Eyes Closed" (8/10)).2 ++
        (triggerAlert oneSubscriberEngine AlertType.eye_closure Severity.moderate
          "Warning: Eyes Closed" (8/10)).2).length = 1) := by
  decide

/-- C1 amended: the cooldown gates live in the `FaceDetectionProcessor`
component, not in `DetectionEngine.triggerAlert`.  There, for each gated
category — drowsiness and yawning sharing `lastAlertTime`, phone-use and
distraction each with their own timestamp — a ready call at `t1` fires, a
second call within `ALERT_COOLDOWN` of `t1` dispatches nothing, and a third
call at least `ALERT_COOLDOWN` after `t1` dispatches a second alert. -/
theorem c1_processor_cooldown (st : ProcessorState) (t1 t2 t3 : ℤ)
    (h1 : ALERT_COOLDOWN ≤ t1 - st.lastAlertTime)
    (h2 : t2 - t1 < ALERT_COOLDOWN)
    (h3 : ALERT_COOLDOWN ≤ t3 - t1)
    (h1p : ALERT_COOLDOWN ≤ t1 - st.lastPhoneAlertTime)
    (h1d : ALERT_COOLDOWN ≤ t1 - st.lastDistractionAlertTime) :
    ((triggerDrowsinessAlert st t1).2 = 1 ∧
      (triggerYawnAlert (triggerDrowsinessAlert st t1).1 t2).2 = 0 ∧
      (triggerDrowsinessAlert
        (triggerYawnAlert (triggerDrowsinessAlert st t1).1 t2).1 t3).2 = 1) ∧
    ((triggerPhoneUseAlert st t1).2 = 1 ∧
      (triggerPhoneUseAlert (triggerPhoneUseAlert st t1).1 t2).2 = 0 ∧
      (triggerPhoneUseAlert
        (triggerPhoneUseAlert (triggerPhoneUseAlert st t1).1 t2).1 t3).2 = 1) ∧
    ((triggerDistractionAlert st t1).2 = 1 ∧
      (triggerDistractionAlert (triggerDistractionAlert st t1).1 t2).2 = 0 ∧
      (triggerDistractionAlert
        (triggerDistractionAlert (triggerDistractionAlert st t1).1 t2).1 t3).2 = 1) := by
  have d1 : triggerDrowsinessAlert st t1 = ({ st with lastAlertTime := t1 }, 1) := by
    unfold triggerDrowsinessAlert
    rw [if_neg (by omega : ¬ t1 - st.lastAlertTime < ALERT_COOLDOWN)]
  have y2 : triggerYawnAlert { st with lastAlertTime := t1 } t2 =
      ({ st with lastAlertTime := t1 }, 0) := by
    unfold triggerYawnAlert
    rw [if_pos (show t2 - ({ st with lastAlertTime := t1 } : ProcessorState).lastAlertTime <
      ALERT_COOLDOWN from h2)]
  have d3 : triggerDrowsinessAlert { st with lastAlertTime := t1 } t3 =
      ({ st with lastAlertTime := t3 }, 1) := by
    unfold triggerDrowsinessAlert
    rw [if_neg (show ¬ t3 - ({ st with lastAlertTime := t1 } : ProcessorState).lastAlertTime <
      ALERT_COOLDOWN from by
        show ¬ t3 - t1 < ALERT_COOLDOWN
        omega)]
  have p1 : triggerPhoneUseAlert st t1 = ({ st with lastPhoneAlertTime := t1 }, 1) := by
    unfold triggerPhoneUseAlert
    rw [if_neg (by omega : ¬ t1 - st.lastPhoneAlertTime < ALERT_COOLDOWN)]
  have p2 : triggerPhoneUseAlert { st with lastPhoneAlertTime := t1 } t2 =
      ({ st with lastPhoneAlertTime := t1 }, 0) := by
    unfold triggerPhoneUseAlert
    rw [if_pos (show t2 -
      ({ st with lastPhoneAlertTime := t1 } : ProcessorState).lastPhoneAlertTime <
      ALERT_COOLDOWN from h2)]
  have p3 : triggerPhoneUseAlert { st with lastPhoneAlertTime := t1 } t3 =
      ({ st with lastPhoneAlertTime := t3 }, 1) := by
    unfold triggerPhoneUseAlert
    rw [if_neg (show ¬ t3 -
      ({ st with lastPhoneAlertTime := t1 } : ProcessorState).lastPhoneAlertTime <
      ALERT_COOLDOWN from by
        show ¬ t3 - t1 < ALERT_COOLDOWN
        omega)]
  have q1 : triggerDistractionAlert st t1 =
      ({ st with lastDistractionAlertTime := t1 }, 1) := by
    unfold triggerDistractionAlert
    rw [if_neg (by omega : ¬ t1 - st.lastDistractionAlertTime < ALERT_COOLDOWN)]
  have q2 : triggerDistractionAlert { st with lastDistractionAlertTime := t1 } t2 =
      ({ st with lastDistractionAlertTime := t1 }, 0) := by
    unfold triggerDistractionAlert
    rw [if_pos (show t2 -
      ({ st with lastDistractionAlertTime := t1 } :
        ProcessorState).lastDistractionAlertTime < ALERT_COOLDOWN from h2)]
  have q3 : triggerDistractionAlert { st with lastDistractionAlertTime := t1 } t3 =
      ({ st with lastDistractionAlertTime := t3 }, 1) := by
    unfold triggerDistractionAlert
    rw [if_neg (show ¬ t3 -
      ({ st with lastDistractionAlertTime := t1 } :
        ProcessorState).lastDistractionAlertTime < ALERT_COOLDOWN from by
        show ¬ t3 - t1 < ALERT_COOLDOWN
        omega)]
  refine ⟨⟨?_, ?_, ?_⟩, ⟨?_, ?_, ?_⟩, ⟨?_, ?_, ?_⟩⟩
  · rw [d1]
  · rw [d1, y2]
  · rw [d1, y2, d3]
  · rw [p1]
  · rw [p1, p2]
  · rw [p1, p2, p3]
  · rw [q1]
  · rw [q1, q2]
  · rw [q1, q2, q3]

/-- C1 witness: from the zero state, calls at 3000 ms, 4000 ms and 7000 ms
on each gate dispatch one, zero and one alert respectively. -/
theorem c1_processor_cooldown_witness :
    ((triggerDrowsinessAlert ⟨0, 0, 0⟩ 3000).2 = 1 ∧
      (triggerYawnAlert (triggerDrowsinessAlert ⟨0, 0, 0⟩ 3000).1 4000).2 = 0 ∧
      (triggerDrowsinessAlert
        (triggerYawnAlert (triggerDrowsinessAlert ⟨0, 0, 0⟩ 3000).1 4000).1 7000).2 =
        1) ∧
    ((triggerPhoneUseAlert ⟨0, 0, 0⟩ 3000).2 = 1 ∧
      (triggerPhoneUseAlert (triggerPhoneUseAlert ⟨0, 0, 0⟩ 3000).1 4000).2 = 0 ∧
      (triggerPhoneUseAlert
        (triggerPhoneUseAlert (triggerPhoneUseAlert ⟨0, 0, 0⟩ 3000).1 4000).1 7000).2 =
        1) ∧
    ((triggerDistractionAlert ⟨0, 0, 0⟩ 3000).2 = 1 ∧
      (triggerDistractionAlert (triggerDistractionAlert ⟨0, 0, 0⟩ 3000).1 4000).2 = 0 ∧
      (triggerDistractionAlert
        (triggerDistractionAlert
          (triggerDistractionAlert ⟨0, 0, 0⟩ 3000).1 4000).1 7000).2 = 1) :=
  c1_processor_cooldown ⟨0, 0, 0⟩ 3000 4000 7000
    (by decide) (by decide) (by decide) (by decide) (by decide)

/-- C5: `calculateEAR` and `calculateMAR` return 0 whenever the
denormalized horizontal distance (eye width or mouth width) is zero — the
guard that prevents a division by zero — and for every landmark input with
positive horizontal distance they return the vertical-distance-sum over
horizontal-distance ratio ((A + B) / (2 C) for EAR, vertical / horizontal
for MAR). -/
theorem c5_ear_mar_zero_width_guard (eyeLandmarks mouthLandmarks : ℕ → LandmarkR)
    (frameWidth frameHeight : ℝ) :
    (earHorizontal eyeLandmarks frameWidth frameHeight = 0 →
      calculateEAR eyeLandmarks frameWidth frameHeight = 0) ∧
    (0 < earHorizontal eyeLandmarks frameWidth frameHeight →
      calculateEAR eyeLandmarks frameWidth frameHeight =
        earVerticalSum eyeLandmarks frameWidth frameHeight /
          (2 * earHorizontal eyeLandmarks frameWidth frameHeight)) ∧
    (marHorizontal mouthLandmarks frameWidth frameHeight = 0 →
      calculateMAR mouthLandmarks frameWidth frameHeight = 0) ∧
    (0 < marHorizontal mouthLandmarks frameWidth frameHeight →
      calculateMAR mouthLandmarks frameWidth frameHeight =
        marVertical mouthLandmarks frameWidth frameHeight /
          marHorizontal mouthLandmarks frameWidth frameHeight) := by
  refine ⟨?_, ?_, ?_, ?_⟩
  · intro h0
    unfold calculateEAR
    rw [if_neg (by rw [h0]; exact lt_irrefl 0)]
  · intro hpos
    unfold calculateEAR
    rw [if_pos hpos]
  · intro h0
    unfold calculateMAR
    rw [if_neg (by rw [h0]; exact lt_irrefl 0)]
  · intro hpos
    unfold calculateMAR
    rw [if_pos hpos]

/-- C5 witness: the all-zero landmark array collapses both horizontal
widths to 0 and both extractors return 0; the spread landmark array has
positive widths and both extractors return the ratio. -/
theorem c5_ear_mar_zero_width_guard_witness :
    calculateEAR zeroLandmarks 1 1 = 0 ∧
    calculateMAR zeroLandmarks 1 1 = 0 ∧
    calculateEAR spreadLandmarks 1 1 =
      earVerticalSum spreadLandmarks 1 1 /
        (2 * earHorizontal spreadLandmarks 1 1) ∧
    calculateMAR spreadLandmarks 1 1 =
      marVertical spreadLandmarks 1 1 / marHorizontal spreadLandmarks 1 1 := by
  have hzero : ∀ x y : ℝ, x = 0 → y = 0 → hypotR x y = 0 := by
    intro x y hx hy
    rw [hx, hy]
    simp [hypotR]
  refine ⟨(c5_ear_mar_zero_width_guard zeroLandmarks zeroLandmarks 1 1).1 ?_,
    (c5_ear_mar_zero_width_guard zeroLandmarks zeroLandmarks 1 1).2.2.1 ?_,
    (c5_ear_mar_zero_width_guard spreadLandmarks spreadLandmarks 1 1).2.1 ?_,
    (c5_ear_mar_zero_width_guard spreadLandmarks spreadLandmarks 1 1).2.2.2 ?_⟩
  · exact hzero _ _ (by norm_num [getPointR, zeroLandmarks]) (by norm_num [getPointR, zeroLandmarks])
  · exact hzero _ _ (by norm_num [getPointR, zeroLandmarks]) (by norm_num [getPointR, zeroLandmarks])
  · show 0 < hypotR _ _
    unfold hypotR
    apply Real.sqrt_pos.mpr
    norm_num [getPointR, spreadLandmarks]
  · show 0 < hypotR _ _
    unfold hypotR
    apply Real.sqrt_pos.mpr
    norm_num [getPointR, spreadLandmarks]
